import Mathlib

/-!
Shallow embedding of `src/main.py` (`JenniferFurnitureScraper`): an e-commerce
scraper that extracts product fields from product pages via ordered CSS-selector
fallback lists with regex last resorts, scans listing pages for product links,
follows pagination, and exports the aggregated records.

HTML parsing and CSS-selector matching are performed by BeautifulSoup, an
external collaborator of the repository.  A parsed document is therefore
modelled as an oracle: a table mapping each selector string to the list of
elements it selects (in document order), a table of `find_all`-by-tag-name
results, the `meta name="description"` element if any, and the serialized
document text `str(soup)` that the regex fallbacks scan.  Elements carry their
tag name, attributes, text, and their own selector table (for the nested
`select_one` calls made on spec rows and product cards).
-/

/-- An HTML element as seen through BeautifulSoup: tag name, attributes,
`.text` content, and a selector table for nested `select_one`/`select`. -/
inductive Elem : Type where
  | mk (name : String) (attrs : List (String × String)) (text : String)
      (sels : List (String × List Elem)) : Elem

def Elem.name : Elem → String
  | .mk n _ _ _ => n

def Elem.attrs : Elem → List (String × String)
  | .mk _ a _ _ => a

def Elem.text : Elem → String
  | .mk _ _ t _ => t

def Elem.sels : Elem → List (String × List Elem)
  | .mk _ _ _ s => s

/-- `element.get(attr)` in BeautifulSoup: the attribute's value, or `None`. -/
def Elem.attr (e : Elem) (a : String) : Option String :=
  e.attrs.lookup a

/-- `element.select(selector)` on a sub-element: all matches in order. -/
def Elem.selectAll (e : Elem) (sel : String) : List Elem :=
  (e.sels.lookup sel).getD []

/-- `element.select_one(selector)` on a sub-element: the first match. -/
def Elem.selectOne (e : Elem) (sel : String) : Option Elem :=
  (e.selectAll sel).head?

/-- A parsed page (`BeautifulSoup(html, "html.parser")`), as an oracle of
its selector matches, tag lookups, meta-description element and raw text. -/
structure Doc where
  sels : List (String × List Elem)
  tags : List (String × List Elem)
  metaDesc : Option Elem
  raw : String

/-- `soup.select(selector)`: all matching elements in document order. -/
def Doc.selectAll (d : Doc) (sel : String) : List Elem :=
  (d.sels.lookup sel).getD []

/-- `soup.select_one(selector)`: the first matching element, if any. -/
def Doc.selectOne (d : Doc) (sel : String) : Option Elem :=
  (d.selectAll sel).head?

/-- `soup.find_all(tag)`: all elements with the given tag name. -/
def Doc.findAll (d : Doc) (tag : String) : List Elem :=
  (d.tags.lookup tag).getD []

/-- Python truthiness of `element.get(attr)`: the attribute's value when it is
present and non-empty (`None` and `""` are both falsy in Python). -/
def truthyAttr (e : Elem) (a : String) : Option String :=
  match e.attr a with
  | some s => if s = "" then none else some s
  | none => none

/-- Python `str.strip()`: whitespace removed from both ends. -/
def pyStrip (s : String) : String :=
  String.mk ((s.data.dropWhile Char.isWhitespace).reverse.dropWhile Char.isWhitespace).reverse

/-- Python `str.lower()` (ASCII model). -/
def pyLower (s : String) : String :=
  String.mk (s.data.map Char.toLower)

/-- Model of the external collaborator `urllib.parse.urljoin` (Python standard
library, outside this repository), restricted to the href shapes exercised
here: an absolute `http(s)` URL is returned unchanged, any other href is
resolved by appending it to the base address. -/
def urljoin (base url : String) : String :=
  if "http://".data.isPrefixOf url.data || "https://".data.isPrefixOf url.data then url
  else base ++ url

/-- The `for selector in selectors: elem = soup.select_one(selector); if elem:
... break` pattern: the first selector in the list that matches, with its
matched element. -/
def selectFirst (d : Doc) (sels : List String) : Option Elem :=
  sels.findSome? (fun s => d.selectOne s)

/-- The `for selector in selectors: elems = soup.select(selector); if elems:
... break` pattern: the match list of the first selector selecting at least
one element. -/
def selectFirstAll (d : Doc) (sels : List String) : Option (List Elem) :=
  sels.findSome? (fun s =>
    match d.selectAll s with
    | [] => none
    | e :: es => some (e :: es))

/-- Python's `\s` character class (ASCII part): space, tab, newline, carriage
return, vertical tab, form feed. -/
def isPySpace (c : Char) : Bool :=
  c = ' ' || c = '\t' || c = '\n' || c = '\r' || c = '\x0b' || c = '\x0c'

/-- A character of the regex class `[A-Za-z0-9-]`. -/
def isSkuChar (c : Char) : Bool :=
  c.isAlpha || c.isDigit || c = '-'

/-- Helper for the substring test: does `pat` occur in the char list? -/
def containsSubAux (pat : List Char) : List Char → Bool
  | [] => pat.isEmpty
  | c :: rest => pat.isPrefixOf (c :: rest) || containsSubAux pat rest

/-- Substring test: `pat in s` in Python. -/
def containsSub (s pat : String) : Bool :=
  containsSubAux pat.data s.data

/-- First match of the price fallback regex `(\$\d+(?:\.\d{2})?)` (re.findall,
first element): scan left to right for a `$` followed by at least one digit;
the match is the `$`, the maximal digit run, and `.dd` when the next three
characters are a dot and two digits. -/
def findPriceMatch : List Char → Option (List Char)
  | [] => none
  | c :: rest =>
    if c = '$' then
      match rest.takeWhile Char.isDigit with
      | [] => findPriceMatch rest
      | d :: ds =>
        match rest.dropWhile Char.isDigit with
        | '.' :: e1 :: e2 :: _ =>
          if e1.isDigit && e2.isDigit then
            some ('$' :: (d :: ds) ++ ['.', e1, e2])
          else
            some ('$' :: d :: ds)
        | _ => some ('$' :: d :: ds)
    else findPriceMatch rest

/-- Attempt of the SKU fallback regex `SKU:?\s*([A-Za-z0-9-]+)` at a position
just after a literal `SKU`: an optional colon, whitespace, then the captured
non-empty `[A-Za-z0-9-]+` token. -/
def skuToken (cs : List Char) : Option String :=
  let cs1 := match cs with
    | ':' :: r => r
    | r => r
  let tok := (cs1.dropWhile isPySpace).takeWhile isSkuChar
  if tok.isEmpty then none else some (String.mk tok)

/-- Attempt of the SKU fallback regex at one scan position: succeeds when the
text starts with a literal `SKU` whose suffix yields a token. -/
def skuMatchAt : List Char → Option String
  | 'S' :: 'K' :: 'U' :: rest => skuToken rest
  | _ => none

/-- First capture of the SKU fallback regex `SKU:?\s*([A-Za-z0-9-]+)` over the
serialized page (re.findall, first element): the regex engine tries a match at
every position, left to right. -/
def skuSearch : List Char → Option String
  | [] => none
  | c :: rest =>
    match skuMatchAt (c :: rest) with
    | some t => some t
    | none => skuSearch rest

/-- Value of a digit run, as Python `int` reads it. -/
def digitsVal (ds : List Char) : Nat :=
  ds.foldl (fun a c => a * 10 + (c.toNat - 48)) 0

/-- Attempt of the regex `page=(\d+)` at one scan position: succeeds when the
text starts with `page=` followed by at least one digit, returning the digit
run and the remainder after it. -/
def pageMatchAt : List Char → Option (List Char × List Char)
  | 'p' :: 'a' :: 'g' :: 'e' :: '=' :: rest =>
    match rest.takeWhile Char.isDigit with
    | [] => none
    | d :: ds => some (d :: ds, rest.dropWhile Char.isDigit)
  | _ => none

/-- First match of `re.search(r"page=(\d+)", url)`: the integer of the first
`page=<digits>` occurrence; the regex engine tries a match at every position,
left to right. -/
def pageSearch : List Char → Option Nat
  | [] => none
  | c :: rest =>
    match pageMatchAt (c :: rest) with
    | some (ds, _) => some (digitsVal ds)
    | none => pageSearch rest

/-- Fuelled scan of `re.sub(r"page=\d+", f"page={n}", url)`: at each position
either a `page=<digits>` match is replaced by `page=<n>` and the scan resumes
after the digits (non-overlapping matches), or one character is copied.  Each
step consumes at least one character, so fuel equal to the input length makes
the fuel bound unreachable. -/
def pageSubAllFuel (n : Nat) : Nat → List Char → List Char
  | 0, cs => cs
  | _ + 1, [] => []
  | fuel + 1, c :: rest =>
    match pageMatchAt (c :: rest) with
    | some (_, after) =>
      'p' :: 'a' :: 'g' :: 'e' :: '=' :: (Nat.repr n).data ++ pageSubAllFuel n fuel after
    | none => c :: pageSubAllFuel n fuel rest

/-- `re.sub(r"page=\d+", f"page={n}", url)`: every non-overlapping
`page=<digits>` occurrence is replaced by `page=<n>`. -/
def pageSubAll (n : Nat) (cs : List Char) : List Char :=
  pageSubAllFuel n cs.length cs

/-!
Field extraction (`parse_product_page`, src/main.py lines 36-248): each field
tries an ordered selector list, then a field-specific fallback, then the
sentinel `"N/A"` (scalars), the empty list (images) or the empty mapping
(specifications).
-/

def title_selectors : List String :=
  ["h1.product-title", "h1.title", "h1.product-single__title",
   "h1[itemprop=\"name\"]", ".product-title h1", "#product-title"]

def price_selectors : List String :=
  ["span.price-new", ".price", ".product-price", "span[itemprop=\"price\"]",
   ".product-single__price", "#product-price", "div.price-box span.regular-price"]

def original_price_selectors : List String :=
  ["span.price-old", ".compare-price", ".product-single__price--compare",
   ".was-price", "span.old-price"]

def sku_selectors : List String :=
  ["div.sku", ".product-sku", "span[itemprop=\"sku\"]", ".product-single__sku"]

def description_selectors : List String :=
  ["div.product-description", ".description", "#product-description",
   "div[itemprop=\"description\"]", ".product-single__description",
   ".product-description-container"]

def image_selectors : List String :=
  ["div.product-image-main img", ".product-featured-image img",
   ".product-single__media img", "img[itemprop=\"image\"]",
   ".product-single__photo img", "div.product-img-box img",
   "#product-featured-image"]

def spec_selectors : List String :=
  ["div.product-specification div.row", ".product-details table tr",
   ".product-specs table tr", "table.product-attributes tr",
   ".product-features li"]

/-- The price cleaner `re.sub(r"[^\d.,]", "", text)`: keep only digits,
periods and commas. -/
def cleanPrice (s : String) : String :=
  String.mk (s.data.filter (fun c => c.isDigit || c = '.' || c = ','))

/-- The SKU cleaner `re.sub(r"^SKU:?\s*", "", text, flags=IGNORECASE)`: strip
one leading case-insensitive `SKU` label with optional colon and whitespace. -/
def stripSkuLabel (s : String) : String :=
  match s.data with
  | c1 :: c2 :: c3 :: rest =>
    if c1.toLower = 's' && c2.toLower = 'k' && c3.toLower = 'u' then
      match rest with
      | ':' :: r => String.mk (r.dropWhile isPySpace)
      | r => String.mk (r.dropWhile isPySpace)
    else s
  | _ => s

/-- Title (lines 50-74): first matching title selector's stripped text, else
the first `h1` on the page, else `"N/A"`. -/
def extractTitle (d : Doc) : String :=
  match selectFirst d title_selectors with
  | some e => pyStrip e.text
  | none =>
    match (d.findAll "h1").head? with
    | some e => pyStrip e.text
    | none => "N/A"

/-- Price (lines 77-106): first matching price selector's stripped text run
through the price cleaner, else the first `(\$\d+(?:\.\d{2})?)` regex match of
the serialized page (returned verbatim, dollar sign included), else `"N/A"`. -/
def extractPrice (d : Doc) : String :=
  match selectFirst d price_selectors with
  | some e => cleanPrice (pyStrip e.text)
  | none =>
    match findPriceMatch d.raw.data with
    | some m => String.mk m
    | none => "N/A"

/-- Original price (lines 109-128): first matching old-price selector's
cleaned text, else the already-resolved price value (the code reads
`product.get("price", "N/A")`, and the `price` key is always set by then). -/
def extractOriginalPrice (d : Doc) (price : String) : String :=
  match selectFirst d original_price_selectors with
  | some e => cleanPrice (pyStrip e.text)
  | none => price

/-- SKU (lines 131-157): first matching SKU selector's stripped text with the
leading `SKU` label removed, else the first regex capture of
`SKU:?\s*([A-Za-z0-9-]+)` over the serialized page, else `"N/A"`. -/
def extractSku (d : Doc) : String :=
  match selectFirst d sku_selectors with
  | some e => stripSkuLabel (pyStrip e.text)
  | none =>
    match skuSearch d.raw.data with
    | some t => t
    | none => "N/A"

/-- Description (lines 160-184): first matching description selector's
stripped text, else the `meta name="description"` element's truthy `content`
attribute (not stripped), else `"N/A"`. -/
def extractDescription (d : Doc) : String :=
  match selectFirst d description_selectors with
  | some e => pyStrip e.text
  | none =>
    match d.metaDesc.bind (fun m => truthyAttr m "content") with
    | some c => c
    | none => "N/A"

/-- The `img.get("src") or img.get("data-src")` idiom, followed by the
`if img_url:` truthiness check. -/
def imgSrc (e : Elem) : Option String :=
  (truthyAttr e "src").orElse (fun _ => truthyAttr e "data-src")

/-- The generic image fallback (lines 210-218): every `img` on the page whose
truthy `src`/`data-src` URL contains `product` or `item` case-insensitively,
resolved against the base address. -/
def genericProductImages (base : String) (d : Doc) : List String :=
  (d.findAll "img").filterMap (fun i =>
    (imgSrc i).bind (fun u =>
      if containsSub (pyLower u) "product" || containsSub (pyLower u) "item" then
        some (urljoin base u)
      else none))

/-- Images (lines 187-218): the first image selector selecting any elements
contributes those elements' resolved `src`/`data-src` URLs; if the collected
list is still empty (no selector matched, or the matched elements carried no
usable URL attribute), the generic page-wide image scan is used. -/
def extractImages (base : String) (d : Doc) : List String :=
  let fromSelectors :=
    match selectFirstAll d image_selectors with
    | some es => es.filterMap (fun i => (imgSrc i).map (fun u => urljoin base u))
    | none => []
  if fromSelectors.isEmpty then genericProductImages base d else fromSelectors

/-- The name sub-element of a specification row: `div.col-sm-4`, else `th`,
else `td:first-child`, else `strong` (line 234). -/
def specNameElem (row : Elem) : Option Elem :=
  ((row.selectOne "div.col-sm-4").orElse (fun _ => row.selectOne "th")).orElse
    (fun _ => (row.selectOne "td:first-child").orElse (fun _ => row.selectOne "strong"))

/-- The value sub-element of a specification row: `div.col-sm-8`, else
`td:last-child`, else `span` (line 235). -/
def specValueElem (row : Elem) : Option Elem :=
  (row.selectOne "div.col-sm-8").orElse
    (fun _ => (row.selectOne "td:last-child").orElse (fun _ => row.selectOne "span"))

/-- Python dict assignment `specs[name] = value`: overwrite in place when the
key exists, append otherwise. -/
def dictInsert (m : List (String × String)) (k v : String) : List (String × String) :=
  if m.any (fun p => p.1 = k) then
    m.map (fun p => if p.1 = k then (k, v) else p)
  else m ++ [(k, v)]

/-- One specification row's contribution (lines 233-240): the row is added
only when both a name and a value sub-element are found. -/
def specStep (m : List (String × String)) (row : Elem) : List (String × String) :=
  match specNameElem row, specValueElem row with
  | some n, some v => dictInsert m (pyStrip n.text) (pyStrip v.text)
  | _, _ => m

/-- Specifications (lines 221-245): the first spec selector selecting any
rows contributes its rows' name/value pairs; no match yields the empty map. -/
def extractSpecs (d : Doc) : List (String × String) :=
  match selectFirstAll d spec_selectors with
  | some rows => rows.foldl specStep []
  | none => []

/-- One product record, as assembled by `parse_product_page`. -/
structure Product where
  title : String
  price : String
  original_price : String
  sku : String
  description : String
  images : List String
  specifications : List (String × String)
  url : String
deriving DecidableEq

/-- The pure core of `parse_product_page` (lines 36-248), once the page has
been fetched and parsed: assemble the record from the per-field extractors. -/
def parse_product_page_doc (base : String) (d : Doc) (url : String) : Product :=
  let price := extractPrice d
  { title := extractTitle d
    price := price
    original_price := extractOriginalPrice d price
    sku := extractSku d
    description := extractDescription d
    images := extractImages base d
    specifications := extractSpecs d
    url := url }

/-!
Listing page scan (`scrape_category_page`, lines 250-346), pagination
(`get_next_page_url`, lines 348-395), orchestration (`scrape_multiple_pages`,
lines 397-426) and the exporters (lines 428-473).  The HTTP fetch collaborator
is modelled as a `World`: a function from URL to the parsed document of a
successful fetch, or `none` for a fetch failure.  Functions that fetch also
return the list of URLs they fetched, in order, so that fetch behaviour
(loop guard, no re-fetch) is provable.
-/

def product_selectors : List String :=
  ["div.product-layout div.product-thumb", ".product-grid .product-card",
   ".collection-grid .grid-product", ".products-grid .product-item",
   ".product-list .product", "ul.products li.product", ".grid-product__content",
   "article[data-product]", ".product-item", ".grid__item", ".product-card"]

def link_selectors : List String :=
  ["div.caption h4 a", "a.product-title", "h2.product-title a",
   "a.grid-product__link", ".product-name a", "a.product-link", "h2 a",
   "a.product-item-link", ".product-card__title a", "a[href*=\"product\"]", "a"]

/-- Product cards of a listing page (lines 260-288): the first card selector
selecting any elements, else anchors whose href contains `product`, else
anchors whose href contains `/products/`. -/
def findCards (d : Doc) : List Elem :=
  match selectFirstAll d product_selectors with
  | some cs => cs
  | none =>
    match d.selectAll "a[href*=\"product\"]" with
    | [] => d.selectAll "a[href*=\"/products/\"]"
    | c :: cs => c :: cs

/-- The link element of one card (lines 291-315): the card itself when it is
an anchor with a truthy href, else the first link selector yielding an element
with a truthy href. -/
def cardLink (card : Elem) : Option Elem :=
  if card.name = "a" && (truthyAttr card "href").isSome then some card
  else
    link_selectors.findSome? (fun s =>
      match card.selectOne s with
      | some e => if (truthyAttr e "href").isSome then some e else none
      | none => none)

/-- The resolved product URLs contributed by the cards, in card order and
before de-duplication (lines 317-320). -/
def cardCandidates (base : String) (d : Doc) : List String :=
  (findCards d).filterMap (fun c =>
    ((cardLink c).bind (fun e => truthyAttr e "href")).map (fun h => urljoin base h))

/-- The resolved URLs of the last-resort link scan (lines 325-332): every
anchor whose truthy href contains `product` or `/p/`. -/
def genericCandidates (base : String) (d : Doc) : List String :=
  (d.findAll "a").filterMap (fun a =>
    (truthyAttr a "href").bind (fun h =>
      if containsSub h "product" || containsSub h "/p/" then
        some (urljoin base h)
      else none))

/-- The `if full_url not in product_links: product_links.append(full_url)`
accumulation: order-preserving de-duplication by exact URL equality. -/
def dedupAppend (acc : List String) (l : List String) : List String :=
  l.foldl (fun a u => if u ∈ a then a else a ++ [u]) acc

/-- The product links of a listing page document (lines 257-334): de-duplicated
card candidates; if that is empty, de-duplicated generic candidates. -/
def scrape_category_links (base : String) (d : Doc) : List String :=
  let links := dedupAppend [] (cardCandidates base d)
  if links.isEmpty then dedupAppend [] (genericCandidates base d) else links

/-- The fetch collaborator: `none` models a fetch failure (network error or
non-2xx status), `some doc` a fetched-and-parsed page. -/
structure World where
  pages : String → Option Doc

/-- `parse_product_page` (lines 36-248): fetch the product page and assemble
its record; a fetch failure produces no record. -/
def parse_product_page (w : World) (base url : String) : Option Product :=
  match w.pages url with
  | none => none
  | some d => some (parse_product_page_doc base d url)

/-- `scrape_category_page` (lines 250-346): fetch the listing page, collect
its product links, and parse every linked product page in order.  The second
component is the list of URLs fetched: the listing page itself, then each
product link (each is fetched exactly once, whether or not it succeeds). -/
def scrape_category_page (w : World) (base url : String) : List Product × List String :=
  match w.pages url with
  | none => ([], [url])
  | some d =>
    let links := scrape_category_links base d
    (links.filterMap (fun l => parse_product_page w base l), url :: links)

def next_link_selectors : List String :=
  ["ul.pagination li.active + li a", ".pagination .next a", "a.pagination__next",
   "a[rel=\"next\"]", ".next-page a", ".pagination-next a", "a.next",
   "a.next-page", ".pagination .next", ".pagination a:contains(\"Next\")",
   "a:contains(\"Next\")"]

/-- The candidate next-link element of one pagination selector (lines
367-378): a `:contains("Next")` selector selects on its base part and keeps
the first element whose stripped lowercased text is `next`; any other
selector goes through `select_one`. -/
def nextCandidate (d : Doc) (sel : String) : Option Elem :=
  if ":contains(\"Next\")".data.isSuffixOf sel.data then
    (d.selectAll (String.mk (sel.data.takeWhile (fun c => c ≠ ':')))).find?
      (fun e => pyLower (pyStrip e.text) == "next")
  else d.selectOne sel

/-- `get_next_page_url` (lines 348-395): the first pagination selector whose
candidate element has a truthy href gives the resolved next URL; otherwise,
when the current URL contains `page=<integer>`, that URL with every
`page=<digits>` occurrence replaced by the integer plus one; otherwise none. -/
def get_next_page_url (base url : String) (d : Doc) : Option String :=
  match next_link_selectors.findSome? (fun sel =>
      (nextCandidate d sel).bind (fun e =>
        (truthyAttr e "href").map (fun h => urljoin base h))) with
  | some u => some u
  | none =>
    match pageSearch url.data with
    | some n => some (String.mk (pageSubAll (n + 1) url.data))
    | none => none

/-- `scrape_multiple_pages` (lines 397-426).  The loop
`while current_url and page_count < max_pages` is embedded with
`fuel = max_pages - page_count`; `acc` is the scraper's `self.all_products`
list, which the loop extends and finally returns.  The second component is
the list of URLs fetched, in order: each iteration fetches the listing page
directly (line 404), then again inside `scrape_category_page` (line 409),
then every discovered product link. -/
def scrape_multiple_pages (w : World) (base : String) :
    Option String → Nat → List Product → List Product × List String
  | none, _, acc => (acc, [])
  | some _, 0, acc => (acc, [])
  | some url, fuel + 1, acc =>
    if url = "" then (acc, [])
    else
      match w.pages url with
      | none => (acc, [url])
      | some doc =>
        let scan := scrape_category_page w base url
        let acc2 := acc ++ scan.1
        let next := get_next_page_url base url doc
        if next = some url then (acc2, url :: scan.2)
        else
          let rest := scrape_multiple_pages w base next fuel acc2
          (rest.1, url :: scan.2 ++ rest.2)

/-- `save_to_json` (lines 428-432): the file is always written; its content is
the aggregated record list serialized as a JSON array (empty list included). -/
def save_to_json (ps : List Product) : Option (List Product) :=
  some ps

/-- The dynamic `spec_<name>` columns (lines 444-449): every specification key
observed across all records, prefixed, de-duplicated and sorted. -/
def specFieldsSorted (ps : List Product) : List String :=
  ((ps.flatMap (fun p => p.specifications.map (fun kv => "spec_" ++ kv.1))).eraseDups).mergeSort
    (fun a b => a ≤ b)

/-- The CSV header (lines 441-450): fixed leading columns, sorted spec
columns, trailing `images` column. -/
def csvFieldnames (ps : List Product) : List String :=
  ["title", "price", "original_price", "sku", "description", "url"]
    ++ specFieldsSorted ps ++ ["images"]

/-- One CSV cell (lines 456-469): fixed columns from the record, `images`
joined with `"; "`, `spec_<name>` columns from the specification map, blank
when the record lacks that key. -/
def csvCell (p : Product) (f : String) : String :=
  if f = "title" then p.title
  else if f = "price" then p.price
  else if f = "original_price" then p.original_price
  else if f = "sku" then p.sku
  else if f = "description" then p.description
  else if f = "url" then p.url
  else if f = "images" then String.intercalate "; " p.images
  else
    match p.specifications.find? (fun kv => ("spec_" ++ kv.1) == f) with
    | some kv => kv.2
    | none => ""

/-- A written CSV file: header row and data rows. -/
structure CsvFile where
  header : List String
  rows : List (List String)
deriving DecidableEq

/-- `save_to_csv` (lines 434-473): an empty record set writes no file and
prints the notice `No products to save`; otherwise the file is written with
dynamic column discovery. -/
def save_to_csv (ps : List Product) : Except String CsvFile :=
  if ps.isEmpty then Except.error "No products to save"
  else
    Except.ok
      { header := csvFieldnames ps
        rows := ps.map (fun p => (csvFieldnames ps).map (fun f => csvCell p f)) }

/-!
Helper notions and lemmas for the claims: a first-occurrence de-duplication
function (the spec's "order-preserving de-duplication"), its relation to the
code's accumulation loop, and small facts about the regex models.
-/

/-- De-duplication keeping the first occurrence of every element, in order:
the spec's notion of order-preserving de-duplication. -/
def myEraseDups : List String → List String
  | [] => []
  | u :: us => u :: myEraseDups (us.filter (fun v => v ≠ u))
termination_by l => l.length
decreasing_by
  have h := List.length_filter_le (fun v => decide (v ≠ u)) us
  simp only [List.length_cons]
  omega

/-!
Concrete pages, elements and worlds used to instantiate the claims: a site
base address, an empty page, a product page with every first locator
matching, pages exercising the fallbacks, and small crawl worlds.
-/

/-- The scraper's default base address (line 11). -/
def siteBase : String := "https://www.jenniferfurniture.com/"

/-- A generic product-page URL used when instantiating page-level claims. -/
def someUrl : String := "https://www.jenniferfurniture.com/products/u"

/-- A page on which no selector, tag lookup or regex matches anything. -/
def emptyDoc : Doc := ⟨[], [], none, ""⟩

def w1Title : Elem := Elem.mk "h1" [] " Modern Sofa " []

def w1Price : Elem := Elem.mk "span" [] " $19.99 " []

def w1Old : Elem := Elem.mk "span" [] " $29.99 " []

def w1Sku : Elem := Elem.mk "div" [] "SKU: AB-12" []

def w1Desc : Elem := Elem.mk "div" [] " Cozy. " []

def w1Img : Elem := Elem.mk "img" [("src", "https://cdn.example.com/sofa.jpg")] "" []

def w1Row : Elem :=
  Elem.mk "div" [] ""
    [("div.col-sm-4", [Elem.mk "div" [] "Color" []]),
     ("div.col-sm-8", [Elem.mk "div" [] "Red" []])]

/-- A product page on which the first locator of every field matches. -/
def w1Doc : Doc :=
  ⟨[("h1.product-title", [w1Title]),
    ("span.price-new", [w1Price]),
    ("span.price-old", [w1Old]),
    ("div.sku", [w1Sku]),
    ("div.product-description", [w1Desc]),
    ("div.product-image-main img", [w1Img]),
    ("div.product-specification div.row", [w1Row])],
   [], none, ""⟩

/-- A product page on which the first image locator matches one element that
carries no `src`/`data-src`, while the page-wide scan finds a product image. -/
def imgDoc : Doc :=
  ⟨[("div.product-image-main img", [Elem.mk "img" [] "" []])],
   [("img", [Elem.mk "img" [("src", "https://cdn.example.com/product-7.jpg")] "" []])],
   none, ""⟩

/-- A product page whose first price locator matches `$12.99` and on which no
old-price locator matches. -/
def c2Doc : Doc := ⟨[("span.price-new", [Elem.mk "span" [] "$12.99" []])], [], none, ""⟩

/-- A product page with a matching price locator, for the price-format claim. -/
def priceDoc10 : Elem × Doc :=
  let e := Elem.mk "span" [] "$1,299.50" []
  (e, ⟨[("span.price-new", [e])], [], none, ""⟩)

/-- A product page with no matching price locator whose serialized text
contains `$12.50`, for the price-format claim. -/
def regexDoc10 : Doc := ⟨[], [], none, "<div>Only $12.50 today</div>"⟩

/-- A listing URL whose page's first pagination locator links back to the
listing itself. -/
def loopUrl : String := "https://www.jenniferfurniture.com/collections/sofas"

/-- The listing page whose next link is the page's own URL. -/
def loopDoc : Doc :=
  ⟨[("ul.pagination li.active + li a", [Elem.mk "a" [("href", loopUrl)] "Next" []])],
   [], none, ""⟩

/-- A world with the self-linking listing page only. -/
def loopWorld : World := ⟨fun u => if u = loopUrl then some loopDoc else none⟩

def listUrl8 : String := "https://www.jenniferfurniture.com/collections/mattresses"

def prodUrl8a : String := "https://www.jenniferfurniture.com/products/dream-1"

def prodUrl8b : String := "https://www.jenniferfurniture.com/products/dream-2"

/-- A listing page with exactly two product cards and no next link. -/
def listDoc8 : Doc :=
  ⟨[("div.product-layout div.product-thumb",
     [Elem.mk "a" [("href", prodUrl8a)] "" [],
      Elem.mk "a" [("href", prodUrl8b)] "" []])],
   [], none, ""⟩

/-- A product page exposing a title and a price via each field's first
configured locator. -/
def prodDoc8 : Doc :=
  ⟨[("h1.product-title", [Elem.mk "h1" [] "Dream Mattress" []]),
    ("span.price-new", [Elem.mk "span" [] "$499.00" []])],
   [], none, ""⟩

/-- The end-to-end world: one listing page with two product cards. -/
def world8 : World :=
  ⟨fun u =>
    if u = listUrl8 then some listDoc8
    else if u = prodUrl8a then some prodDoc8
    else if u = prodUrl8b then some prodDoc8
    else none⟩

/-- The record scraped from `prodDoc8` at a given URL. -/
def rec8 (url : String) : Product :=
  ⟨"Dream Mattress", "499.00", "499.00", "N/A", "N/A", [], [], url⟩

def listUrl9 : String := "https://www.jenniferfurniture.com/collections/beds"

def prodUrl9 : String := "https://www.jenniferfurniture.com/products/bed-1"

/-- A world with one listing page holding a single product card whose product
page matches nothing. -/
def world9 : World :=
  ⟨fun u =>
    if u = listUrl9 then
      some ⟨[("div.product-layout div.product-thumb",
              [Elem.mk "a" [("href", prodUrl9)] "" []])], [], none, ""⟩
    else if u = prodUrl9 then some emptyDoc
    else none⟩

/-- The record scraped from the empty product page of `world9`. -/
def rec9 : Product := ⟨"N/A", "N/A", "N/A", "N/A", "N/A", [], [], prodUrl9⟩

/-- A record with one specification, for the exporter claim. -/
def sampleProduct : Product :=
  ⟨"T", "9.99", "9.99", "S", "D", [], [("Color", "Red")],
   "https://www.jenniferfurniture.com/products/x"⟩

theorem myEraseDups_subset : ∀ (l : List String), ∀ x ∈ myEraseDups l, x ∈ l := by
  intro l
  induction l using myEraseDups.induct with
  | case1 => intro x hx; simp [myEraseDups] at hx
  | case2 u us ih =>
    intro x hx
    rw [myEraseDups] at hx
    rcases List.mem_cons.mp hx with h | h
    · exact h ▸ List.mem_cons_self u us
    · exact List.mem_cons_of_mem u (List.mem_of_mem_filter (ih x h))

theorem myEraseDups_nodup : ∀ (l : List String), (myEraseDups l).Nodup := by
  intro l
  induction l using myEraseDups.induct with
  | case1 => simp [myEraseDups]
  | case2 u us ih =>
    rw [myEraseDups]
    refine List.nodup_cons.mpr ⟨fun hmem => ?_, ih⟩
    have := List.of_mem_filter (myEraseDups_subset _ u hmem)
    simp at this

theorem dedupAppend_eq_eraseDups (l : List String) :
    ∀ acc : List String,
      dedupAppend acc l = acc ++ myEraseDups (l.filter (fun u => u ∉ acc)) := by
  induction l with
  | nil => intro acc; simp [dedupAppend, myEraseDups]
  | cons u us ih =>
    intro acc
    by_cases hu : u ∈ acc
    · have h1 : dedupAppend acc (u :: us) = dedupAppend acc us := by
        simp [dedupAppend, hu]
      rw [h1, ih acc, List.filter_cons]
      simp [hu]
    · have h1 : dedupAppend acc (u :: us) = dedupAppend (acc ++ [u]) us := by
        simp [dedupAppend, hu]
      rw [h1, ih (acc ++ [u]), List.filter_cons]
      have hpred : us.filter (fun v => v ∉ acc ++ [u])
          = (us.filter (fun v => v ∉ acc)).filter (fun v => v ≠ u) := by
        rw [List.filter_filter]
        refine List.filter_congr ?_
        intro v _
        by_cases h1 : v ∈ acc <;> by_cases h2 : v = u <;> simp [h1, h2]
      rw [hpred]
      simp [hu, myEraseDups]

theorem dedupAppend_nil_eq (l : List String) : dedupAppend [] l = myEraseDups l := by
  rw [dedupAppend_eq_eraseDups l []]
  simp

theorem findPriceMatch_head : ∀ (cs : List Char) (m : List Char),
    findPriceMatch cs = some m → m.head? = some '$' := by
  intro cs
  induction cs with
  | nil => intro m h; simp [findPriceMatch] at h
  | cons c rest ih =>
    intro m h
    rw [findPriceMatch] at h
    split at h
    · split at h
      · exact ih m h
      · split at h
        · split at h
          · cases h; rfl
          · cases h; rfl
        · cases h; rfl
    · exact ih m h

theorem selectFirst_eq_none {d : Doc} {sels : List String}
    (h : ∀ s ∈ sels, d.selectOne s = none) : selectFirst d sels = none :=
  List.findSome?_eq_none_iff.mpr h

theorem selectFirstAll_eq_none {d : Doc} {sels : List String}
    (h : ∀ s ∈ sels, d.selectAll s = []) : selectFirstAll d sels = none := by
  refine List.findSome?_eq_none_iff.mpr ?_
  intro s hs
  simp [h s hs]

/-- Claim C2 (amended): when every extraction strategy of a field fails — its
locator list, and its fallback (generic `h1` for title, price regex for price,
SKU regex for sku, meta description for description, page-wide image scan for
images) — the assembled record still binds the field's key: title, price, sku
and description to the sentinel `"N/A"`, images to the empty sequence and
specifications to the empty mapping.  `original_price`, whose only fallback is
the already-resolved price, is bound to that price value (hence `"N/A"`
exactly when price also failed), not unconditionally to `"N/A"`. -/
theorem c2_sentinel_defaults (base url : String) (d : Doc) :
    ((∀ s ∈ title_selectors, d.selectOne s = none) → d.findAll "h1" = [] →
        (parse_product_page_doc base d url).title = "N/A")
    ∧ ((∀ s ∈ price_selectors, d.selectOne s = none) →
        findPriceMatch d.raw.data = none →
        (parse_product_page_doc base d url).price = "N/A")
    ∧ ((∀ s ∈ original_price_selectors, d.selectOne s = none) →
        (parse_product_page_doc base d url).original_price
          = (parse_product_page_doc base d url).price)
    ∧ ((∀ s ∈ sku_selectors, d.selectOne s = none) →
        skuSearch d.raw.data = none →
        (parse_product_page_doc base d url).sku = "N/A")
    ∧ ((∀ s ∈ description_selectors, d.selectOne s = none) →
        d.metaDesc.bind (fun m => truthyAttr m "content") = none →
        (parse_product_page_doc base d url).description = "N/A")
    ∧ ((∀ s ∈ image_selectors, d.selectAll s = []) →
        genericProductImages base d = [] →
        (parse_product_page_doc base d url).images = [])
    ∧ ((∀ s ∈ spec_selectors, d.selectAll s = []) →
        (parse_product_page_doc base d url).specifications = []) := by
  refine ⟨?_, ?_, ?_, ?_, ?_, ?_, ?_⟩
  · intro h1 h2
    simp [parse_product_page_doc, extractTitle, selectFirst_eq_none h1, h2]
  · intro h1 h2
    simp [parse_product_page_doc, extractPrice, selectFirst_eq_none h1, h2]
  · intro h1
    simp [parse_product_page_doc, extractOriginalPrice, selectFirst_eq_none h1]
  · intro h1 h2
    simp [parse_product_page_doc, extractSku, selectFirst_eq_none h1, h2]
  · intro h1 h2
    simp [parse_product_page_doc, extractDescription, selectFirst_eq_none h1, h2]
  · intro h1 h2
    simp [parse_product_page_doc, extractImages, selectFirstAll_eq_none h1, h2]
  · intro h1
    simp [parse_product_page_doc, extractSpecs, selectFirstAll_eq_none h1]

theorem c2_sentinel_defaults_witness :
    (parse_product_page_doc siteBase emptyDoc someUrl).title = "N/A"
    ∧ (parse_product_page_doc siteBase emptyDoc someUrl).price = "N/A"
    ∧ (parse_product_page_doc siteBase emptyDoc someUrl).original_price
        = (parse_product_page_doc siteBase emptyDoc someUrl).price
    ∧ (parse_product_page_doc siteBase emptyDoc someUrl).sku = "N/A"
    ∧ (parse_product_page_doc siteBase emptyDoc someUrl).description = "N/A"
    ∧ (parse_product_page_doc siteBase emptyDoc someUrl).images = []
    ∧ (parse_product_page_doc siteBase emptyDoc someUrl).specifications = [] :=
  ⟨(c2_sentinel_defaults siteBase someUrl emptyDoc).1 (fun _ _ => rfl) rfl,
   (c2_sentinel_defaults siteBase someUrl emptyDoc).2.1 (fun _ _ => rfl) rfl,
   (c2_sentinel_defaults siteBase someUrl emptyDoc).2.2.1 (fun _ _ => rfl),
   (c2_sentinel_defaults siteBase someUrl emptyDoc).2.2.2.1 (fun _ _ => rfl) rfl,
   (c2_sentinel_defaults siteBase someUrl emptyDoc).2.2.2.2.1 (fun _ _ => rfl) rfl,
   (c2_sentinel_defaults siteBase someUrl emptyDoc).2.2.2.2.2.1 (fun _ _ => rfl) rfl,
   (c2_sentinel_defaults siteBase someUrl emptyDoc).2.2.2.2.2.2 (fun _ _ => rfl)⟩

/-- Claim C2 fails as stated for `original_price`: on a page whose price
locator matches `$12.99` while no old-price locator matches anything (and the
field has no regex fallback), the record binds `original_price` to `"12.99"`,
not to the sentinel `"N/A"`. -/
theorem c2_original_price_counterexample :
    original_price_selectors.all (fun s => (c2Doc.selectOne s).isNone) = true
    ∧ (parse_product_page_doc siteBase c2Doc someUrl).original_price ≠ "N/A" := by
  decide

/-- Claim C4: whenever no old-price locator matches any element, the record's
`original_price` equals its `price` exactly, including when `price` itself
resolved to the sentinel; an old-price element only ever overrides this
default. -/
theorem c4_original_price_defaults_to_price (base url : String) (d : Doc)
    (h : ∀ s ∈ original_price_selectors, d.selectOne s = none) :
    (parse_product_page_doc base d url).original_price
      = (parse_product_page_doc base d url).price := by
  simp [parse_product_page_doc, extractOriginalPrice, selectFirst_eq_none h]

theorem c4_original_price_defaults_to_price_witness :
    (parse_product_page_doc siteBase emptyDoc someUrl).original_price
      = (parse_product_page_doc siteBase emptyDoc someUrl).price :=
  c4_original_price_defaults_to_price siteBase someUrl emptyDoc (fun _ _ => rfl)

/-- Claim C5: the listing-page scanner's result never contains a duplicate
URL, and it is the first-occurrence-order de-duplication of the resolved
candidate URLs of whichever discovery path was taken (card candidates, or the
generic link scan when the card path produced nothing). -/
theorem c5_scanner_links_nodup (base : String) (d : Doc) :
    (scrape_category_links base d).Nodup
    ∧ (scrape_category_links base d = myEraseDups (cardCandidates base d)
       ∨ scrape_category_links base d = myEraseDups (genericCandidates base d)) := by
  have h1 : scrape_category_links base d
      = if (dedupAppend [] (cardCandidates base d)).isEmpty
        then dedupAppend [] (genericCandidates base d)
        else dedupAppend [] (cardCandidates base d) := rfl
  by_cases hc : (dedupAppend [] (cardCandidates base d)).isEmpty = true
  · rw [h1, if_pos hc, dedupAppend_nil_eq]
    exact ⟨myEraseDups_nodup _, Or.inr rfl⟩
  · rw [h1, if_neg hc, dedupAppend_nil_eq]
    exact ⟨myEraseDups_nodup _, Or.inl rfl⟩

theorem emptyDoc_nextCandidate (sel : String) : nextCandidate emptyDoc sel = none := by
  unfold nextCandidate
  split
  · rfl
  · rfl

/-- Claim C6: when no next-link locator matches the document, the pagination
resolver falls back to the numeric heuristic — if the current URL contains a
`page=<integer>` query component it returns the URL with that integer
replaced by the integer plus one (the code's `re.sub` rewrites every
`page=<digits>` occurrence to the first integer plus one; for a URL with a
single such component this is exactly that replacement), and otherwise it
returns none. -/
theorem c6_numeric_pagination_fallback (base url : String) (d : Doc)
    (h : ∀ sel ∈ next_link_selectors, nextCandidate d sel = none) :
    (∀ n : Nat, pageSearch url.data = some n →
        get_next_page_url base url d = some (String.mk (pageSubAll (n + 1) url.data)))
    ∧ (pageSearch url.data = none → get_next_page_url base url d = none) := by
  have hf : next_link_selectors.findSome? (fun sel =>
      (nextCandidate d sel).bind (fun e =>
        (truthyAttr e "href").map (fun h2 => urljoin base h2))) = none := by
    refine List.findSome?_eq_none_iff.mpr ?_
    intro sel hs
    simp [h sel hs]
  constructor
  · intro n hn
    simp [get_next_page_url, hf, hn]
  · intro hn
    simp [get_next_page_url, hf, hn]

theorem c6_numeric_pagination_fallback_witness :
    get_next_page_url siteBase "https://www.jenniferfurniture.com/c?page=3" emptyDoc
      = some (String.mk (pageSubAll (3 + 1) "https://www.jenniferfurniture.com/c?page=3".data))
    ∧ get_next_page_url siteBase "https://www.jenniferfurniture.com/c" emptyDoc = none :=
  ⟨(c6_numeric_pagination_fallback siteBase "https://www.jenniferfurniture.com/c?page=3"
      emptyDoc (fun sel _ => emptyDoc_nextCandidate sel)).1 3 rfl,
   (c6_numeric_pagination_fallback siteBase "https://www.jenniferfurniture.com/c"
      emptyDoc (fun sel _ => emptyDoc_nextCandidate sel)).2 rfl⟩

/-- Claim C7: exporting an empty record set to CSV writes no file and emits
the notice `No products to save`, while the JSON exporter always writes a
file — an empty record set yields the empty array; when records exist, both
exporters write their files. -/
theorem c7_export_empty_behavior :
    save_to_csv [] = Except.error "No products to save"
    ∧ save_to_json ([] : List Product) = some []
    ∧ ∀ ps : List Product, ps ≠ [] →
        (save_to_csv ps).isOk = true ∧ (save_to_json ps).isSome = true := by
  refine ⟨rfl, rfl, ?_⟩
  intro ps hps
  cases ps with
  | nil => exact absurd rfl hps
  | cons p ps2 => exact ⟨rfl, rfl⟩

theorem c7_export_empty_behavior_witness :
    (save_to_csv [sampleProduct]).isOk = true
    ∧ (save_to_json [sampleProduct]).isSome = true :=
  c7_export_empty_behavior.2.2 [sampleProduct] (by decide)

/-- Claim C10: the price field's format is not uniform.  When some price
selector matches, the returned price consists only of digits, commas and
periods (the cleaner strips everything else, the dollar sign included); when
no selector matches and the regex fallback finds a match, the whole match is
returned uncleaned, and it begins with the literal `$` character. -/
theorem c10_price_format_dichotomy (base url : String) (d : Doc) :
    (∀ e : Elem, selectFirst d price_selectors = some e →
        (parse_product_page_doc base d url).price.data.all
          (fun c => c.isDigit || c = ',' || c = '.') = true)
    ∧ (selectFirst d price_selectors = none →
        ∀ m : List Char, findPriceMatch d.raw.data = some m →
          (parse_product_page_doc base d url).price = String.mk m
          ∧ (parse_product_page_doc base d url).price.data.head? = some '$') := by
  constructor
  · intro e he
    have hp : (parse_product_page_doc base d url).price = cleanPrice (pyStrip e.text) := by
      simp [parse_product_page_doc, extractPrice, he]
    rw [hp, cleanPrice]
    rw [List.all_eq_true]
    intro c hc
    have := List.of_mem_filter hc
    simp at this
    simp [this]
    tauto
  · intro he m hm
    have hp : (parse_product_page_doc base d url).price = String.mk m := by
      simp [parse_product_page_doc, extractPrice, he, hm]
    refine ⟨hp, ?_⟩
    rw [hp]
    exact findPriceMatch_head d.raw.data m hm

theorem c10_price_format_dichotomy_witness :
    (parse_product_page_doc siteBase priceDoc10.2 someUrl).price.data.all
      (fun c => c.isDigit || c = ',' || c = '.') = true
    ∧ ((parse_product_page_doc siteBase regexDoc10 someUrl).price
          = String.mk ['$', '1', '2', '.', '5', '0']
       ∧ (parse_product_page_doc siteBase regexDoc10 someUrl).price.data.head?
          = some '$') :=
  ⟨(c10_price_format_dichotomy siteBase someUrl priceDoc10.2).1 priceDoc10.1 rfl,
   (c10_price_format_dichotomy siteBase someUrl regexDoc10).2 rfl
     ['$', '1', '2', '.', '5', '0'] rfl⟩

/-- Claim C1 fails as stated for the images field: on a page whose first image
locator matches one element that carries no `src`/`data-src` attribute, the
record's images are not that first match's (empty) extraction — the page-wide
fallback scan supplies a different, non-empty result. -/
theorem c1_image_fallback_counterexample :
    (imgDoc.selectAll "div.product-image-main img").isEmpty = false
    ∧ (parse_product_page_doc siteBase imgDoc someUrl).images
        ≠ (imgDoc.selectAll "div.product-image-main img").filterMap
            (fun i => (imgSrc i).map (fun u => urljoin siteBase u)) := by
  decide

/-- Claim C1 (amended): for every field, once the first locator of its
declared list matches the document the result is determined by that first
match alone and later locators are never consulted: the scalar fields return
the first match's cleaned text (stripped; price-cleaned for the price fields;
SKU-label-stripped for sku), and specifications are built from the first
matching locator's rows only.  For images the first matching locator's
elements determine the result as long as at least one of them carries a
truthy `src`/`data-src` attribute; when none does, the page-wide scan
supplies the result instead (later locators still unconsulted). -/
theorem c1_first_locator_wins (base url : String) (d : Doc) :
    (∀ e : Elem, d.selectOne "h1.product-title" = some e →
        (parse_product_page_doc base d url).title = pyStrip e.text)
    ∧ (∀ e : Elem, d.selectOne "span.price-new" = some e →
        (parse_product_page_doc base d url).price = cleanPrice (pyStrip e.text))
    ∧ (∀ e : Elem, d.selectOne "span.price-old" = some e →
        (parse_product_page_doc base d url).original_price = cleanPrice (pyStrip e.text))
    ∧ (∀ e : Elem, d.selectOne "div.sku" = some e →
        (parse_product_page_doc base d url).sku = stripSkuLabel (pyStrip e.text))
    ∧ (∀ e : Elem, d.selectOne "div.product-description" = some e →
        (parse_product_page_doc base d url).description = pyStrip e.text)
    ∧ (∀ es : List Elem, d.selectAll "div.product-image-main img" = es → es ≠ [] →
        es.filterMap (fun i => (imgSrc i).map (fun u => urljoin base u)) ≠ [] →
        (parse_product_page_doc base d url).images
          = es.filterMap (fun i => (imgSrc i).map (fun u => urljoin base u)))
    ∧ (∀ rs : List Elem, d.selectAll "div.product-specification div.row" = rs → rs ≠ [] →
        (parse_product_page_doc base d url).specifications = rs.foldl specStep []) := by
  refine ⟨?_, ?_, ?_, ?_, ?_, ?_, ?_⟩
  · intro e he
    simp [parse_product_page_doc, extractTitle, selectFirst, title_selectors,
      List.findSome?_cons, he]
  · intro e he
    simp [parse_product_page_doc, extractPrice, selectFirst, price_selectors,
      List.findSome?_cons, he]
  · intro e he
    simp [parse_product_page_doc, extractOriginalPrice, selectFirst,
      original_price_selectors, List.findSome?_cons, he]
  · intro e he
    simp [parse_product_page_doc, extractSku, selectFirst, sku_selectors,
      List.findSome?_cons, he]
  · intro e he
    simp [parse_product_page_doc, extractDescription, selectFirst,
      description_selectors, List.findSome?_cons, he]
  · intro es he hne hcol
    cases es with
    | nil => exact absurd rfl hne
    | cons e0 es2 =>
      have hsel : selectFirstAll d image_selectors = some (e0 :: es2) := by
        simp [selectFirstAll, image_selectors, List.findSome?_cons, he]
      have himg : extractImages base d
          = (e0 :: es2).filterMap (fun i => (imgSrc i).map (fun u => urljoin base u)) := by
        rw [extractImages, hsel]
        simp only []
        rw [if_neg]
        simpa [List.isEmpty_iff] using hcol
      simp [parse_product_page_doc, himg]
  · intro rs hr hne
    cases rs with
    | nil => exact absurd rfl hne
    | cons r0 rs2 =>
      have hsel : selectFirstAll d spec_selectors = some (r0 :: rs2) := by
        simp [selectFirstAll, spec_selectors, List.findSome?_cons, hr]
      simp [parse_product_page_doc, extractSpecs, hsel]

theorem c1_first_locator_wins_witness :
    (parse_product_page_doc siteBase w1Doc someUrl).title = pyStrip w1Title.text
    ∧ (parse_product_page_doc siteBase w1Doc someUrl).price = cleanPrice (pyStrip w1Price.text)
    ∧ (parse_product_page_doc siteBase w1Doc someUrl).original_price
        = cleanPrice (pyStrip w1Old.text)
    ∧ (parse_product_page_doc siteBase w1Doc someUrl).sku = stripSkuLabel (pyStrip w1Sku.text)
    ∧ (parse_product_page_doc siteBase w1Doc someUrl).description = pyStrip w1Desc.text
    ∧ (parse_product_page_doc siteBase w1Doc someUrl).images
        = [w1Img].filterMap (fun i => (imgSrc i).map (fun u => urljoin siteBase u))
    ∧ (parse_product_page_doc siteBase w1Doc someUrl).specifications
        = [w1Row].foldl specStep [] :=
  ⟨(c1_first_locator_wins siteBase someUrl w1Doc).1 w1Title rfl,
   (c1_first_locator_wins siteBase someUrl w1Doc).2.1 w1Price rfl,
   (c1_first_locator_wins siteBase someUrl w1Doc).2.2.1 w1Old rfl,
   (c1_first_locator_wins siteBase someUrl w1Doc).2.2.2.1 w1Sku rfl,
   (c1_first_locator_wins siteBase someUrl w1Doc).2.2.2.2.1 w1Desc rfl,
   (c1_first_locator_wins siteBase someUrl w1Doc).2.2.2.2.2.1 [w1Img] rfl
     (List.cons_ne_nil _ _) (by decide),
   (c1_first_locator_wins siteBase someUrl w1Doc).2.2.2.2.2.2 [w1Row] rfl
     (List.cons_ne_nil _ _)⟩

/-- Claim C3: when the pagination resolver returns a URL identical to the
current page's URL, the crawl loop stops after processing the current page —
the final result is the aggregate extended by this page's products only, and
the complete remaining fetch trace is this page's own processing (its two
listing fetches and its product links); no later fetch of that URL or of any
further listing page occurs in the crawl. -/
theorem c3_pagination_loop_guard (w : World) (base url : String) (fuel : Nat)
    (acc : List Product) (doc : Doc) (h0 : url ≠ "")
    (h1 : w.pages url = some doc)
    (h2 : get_next_page_url base url doc = some url) :
    scrape_multiple_pages w base (some url) (fuel + 1) acc
      = (acc ++ (scrape_category_page w base url).1,
         url :: (scrape_category_page w base url).2) := by
  simp [scrape_multiple_pages, h0, h1, h2]

theorem c3_pagination_loop_guard_witness :
    scrape_multiple_pages loopWorld siteBase (some loopUrl) (0 + 1) []
      = ([] ++ (scrape_category_page loopWorld siteBase loopUrl).1,
         loopUrl :: (scrape_category_page loopWorld siteBase loopUrl).2) :=
  c3_pagination_loop_guard loopWorld siteBase loopUrl 0 [] loopDoc
    (by decide) rfl rfl

/-- Claim C8: in a world with a single listing page holding exactly two
product cards, each product page exposing a title and a price via its first
configured locator, and no next link, a crawl with `maxPages = 1` returns
exactly the two product records; the fetch trace is the listing page (fetched
at the loop's two call sites) followed by the two product pages — no further
listing page is ever fetched. -/
theorem c8_end_to_end_two_products :
    scrape_multiple_pages world8 siteBase (some listUrl8) 1 []
      = ([rec8 prodUrl8a, rec8 prodUrl8b],
         [listUrl8, listUrl8, prodUrl8a, prodUrl8b]) := by
  decide

/-- Claim C9 fails as stated: the aggregate list lives on the scraper object
(`self.all_products`), not in the crawl invocation — a second invocation on
the same scraper returns the first invocation's records again, followed by
its own. -/
theorem c9_state_persists_counterexample :
    (scrape_multiple_pages world9 siteBase (some listUrl9) 1 []).1 = [rec9]
    ∧ (scrape_multiple_pages world9 siteBase (some listUrl9) 1
        ((scrape_multiple_pages world9 siteBase (some listUrl9) 1 []).1)).1
      = [rec9, rec9] := by
  decide

/-- Claim C9 (amended): one crawl invocation returns the scraper's cumulative
`all_products` list — the records already aggregated before the invocation,
followed by exactly the records this invocation aggregates; the state is not
discarded at crawl end, so a second invocation on the same scraper returns
the first invocation's records again. -/
theorem c9_accumulator_threading (w : World) (base : String) :
    ∀ (fuel : Nat) (cur : Option String) (acc : List Product),
      (scrape_multiple_pages w base cur fuel acc).1
        = acc ++ (scrape_multiple_pages w base cur fuel []).1 := by
  intro fuel
  induction fuel with
  | zero =>
    intro cur acc
    cases cur <;> simp [scrape_multiple_pages]
  | succ n ih =>
    intro cur acc
    cases cur with
    | none => simp [scrape_multiple_pages]
    | some url =>
      by_cases hurl : url = ""
      · simp [scrape_multiple_pages, hurl]
      · cases hp : w.pages url with
        | none => simp [scrape_multiple_pages, hurl, hp]
        | some doc =>
          by_cases hnext : get_next_page_url base url doc = some url
          · simp [scrape_multiple_pages, hurl, hp, hnext]
          · simp only [scrape_multiple_pages, hurl, hp, if_neg, hnext,
              if_false, ite_false]
            simp [hnext, ih _ (acc ++ (scrape_category_page w base url).1),
              ih _ ([] ++ (scrape_category_page w base url).1)]
            exact (ih _ _).symm
